import Mathlib

/-!
Verification of the RTW (Right-to-Work) extraction pipeline
(`rtw_extract.py`): a shallow embedding of the share-code and
date-of-birth extraction functions, the vision-fallback client and the
extraction orchestrator, with theorems checking the natural-language
specification against the code.

Strings are modelled as Lean `String`s and manipulated char-wise via
`String.data`.  Confidences are Python floats drawn from the fixed set
{0, 0.5, 0.6, 0.65, 0.75, 0.80, 0.85, 0.90, 0.95}; they are modelled as
naturals in hundredths (0, 50, 60, 65, 75, 80, 85, 90, 95), which is
order-isomorphic to the float comparisons the code performs on that set
(only `<`, `>` and `max` are ever applied).  External libraries
(pdfplumber, PyMuPDF, dateutil, the Gemini client) are modelled as
explicit oracle parameters.
-/

namespace RTW

/-- Python `str.upper` restricted to the character repertoire the code
manipulates: ASCII lowercase (`a`–`z`, 97–122) and Latin-1 lowercase
letters (0xE0–0xFE except `÷`) are mapped to their uppercase forms,
everything else is unchanged. -/
def pyUpper (c : Char) : Char :=
  if 97 ≤ c.toNat ∧ c.toNat ≤ 122 then Char.ofNat (c.toNat - 32)
  else if 0xE0 ≤ c.toNat ∧ c.toNat ≤ 0xFE ∧ c.toNat ≠ 0xF7 then Char.ofNat (c.toNat - 32)
  else c

/-- Python whitespace (`\s`, `str.strip`): space, tab, LF, CR, VT, FF,
plus the non-breaking space (0xA0) the spec calls out. -/
def isSpaceChar (c : Char) : Bool :=
  c.toNat = 32 ∨ c.toNat = 9 ∨ c.toNat = 10 ∨ c.toNat = 13 ∨
    c.toNat = 0x0B ∨ c.toNat = 0x0C ∨ c.toNat = 0xA0

/-- The character class `[A-Z0-9]` (`A`–`Z` is 65–90, `0`–`9` is 48–57). -/
def isAZ09 (c : Char) : Bool :=
  (65 ≤ c.toNat ∧ c.toNat ≤ 90) ∨ (48 ≤ c.toNat ∧ c.toNat ≤ 57)

/-- `[A-Z0-9]` under `re.IGNORECASE` (as used by `SHARECODE_RE`):
additionally matches `a`–`z`. -/
def isShareChar (c : Char) : Bool :=
  isAZ09 c ∨ (97 ≤ c.toNat ∧ c.toNat ≤ 122)

/-- ASCII digit class `\d` (the code never feeds non-ASCII digits). -/
def isDigitChar (c : Char) : Bool :=
  48 ≤ c.toNat ∧ c.toNat ≤ 57

/-- The character class `[A-ZÀ-ÿ]` under `re.IGNORECASE`: ASCII letters
(either case) and the Latin-1 supplement range `À`–`ÿ` (0xC0–0xFF). -/
def isMonthLetter (c : Char) : Bool :=
  (65 ≤ c.toNat ∧ c.toNat ≤ 90) ∨ (97 ≤ c.toNat ∧ c.toNat ≤ 122) ∨
    (0xC0 ≤ c.toNat ∧ c.toNat ≤ 0xFF)

/-- Python regex word character `\w` over the repertoire in play:
ASCII alphanumerics, underscore, and Latin-1 letters. -/
def isWordChar (c : Char) : Bool :=
  isAZ09 c ∨ (97 ≤ c.toNat ∧ c.toNat ≤ 122) ∨ c.toNat = 95 ∨
    (0xC0 ≤ c.toNat ∧ c.toNat ≤ 0xFF ∧ c.toNat ≠ 0xD7 ∧ c.toNat ≠ 0xF7)

/-- Python `str.strip` on a char list. -/
def stripChars (cs : List Char) : List Char :=
  ((cs.dropWhile isSpaceChar).reverse.dropWhile isSpaceChar).reverse

/-- `_safe_upper`: `(s or "").strip().upper()`. -/
def safe_upper (s : String) : String :=
  ⟨(stripChars s.data).map pyUpper⟩

/-- The cleaning step of `normalize_share_code`:
`re.sub(r"[^A-Z0-9]", "", candidate.upper())`. -/
def cleanShare (cs : List Char) : List Char :=
  (cs.map pyUpper).filter isAZ09

/-- `normalize_share_code`: uppercase, strip every non-`[A-Z0-9]`
character, return the result iff it is exactly 9 characters (the final
`re.fullmatch(r"[A-Z0-9]{9}", s)` re-check is also modelled). -/
def normalize_share_code (candidate : String) : Option String :=
  if candidate = "" then none
  else
    let s := cleanShare candidate.data
    if s.length ≠ 9 then none
    else if ¬ s.all isAZ09 then none
    else some ⟨s⟩

/-- `format_share_code_spaced`: display form `XXX XXX XXX`. -/
def format_share_code_spaced (raw9 : String) : String :=
  let r := (normalize_share_code raw9).getD raw9
  if r = "" then ""
  else if r.length < 9 then r
  else ⟨r.data.take 3 ++ (' ' :: (r.data.drop 3).take 3) ++ (' ' :: (r.data.drop 6).take 3)⟩

/-- `normalize_year_2digit`: maps a 2-digit year to a 4-digit year using
the current 2-digit year `yy` (read from the clock in the source, passed
as a parameter here): greater than the current 2-digit year means 1900s,
otherwise 2000s. -/
def normalize_year_2digit (y : Nat) (yy : Nat) : Nat :=
  if y < 100 then
    if y > yy then 1900 + y else 2000 + y
  else y

/-- Zero-padded 2-digit decimal rendering, `f"{n:02d}"`. -/
def pad2 (n : Nat) : String :=
  if n < 10 then "0" ++ toString n else toString n

/-- Zero-padded 4-digit decimal rendering, `f"{n:04d}"`. -/
def pad4 (n : Nat) : String :=
  if n < 10 then "000" ++ toString n
  else if n < 100 then "00" ++ toString n
  else if n < 1000 then "0" ++ toString n
  else toString n

/-- The two-digit-year fixup inside `parse_dob_string`:
`y = 2000 + y if y <= 30 else 1900 + y` for `y < 100`.  Note the fixed
cutoff at 30, unlike `normalize_year_2digit`. -/
def dob_string_year (y : Nat) : Nat :=
  if y < 100 then (if y ≤ 30 then 2000 + y else 1900 + y) else y

/-- `parse_dob_string`, with `dateutil.parser.parse` modelled as the
oracle `dateparse` (returning `(day, month, year)` on success, `none`
when parsing raises or yields nothing).  The source's own
post-processing — the fixed-cutoff two-digit-year expansion
(`y <= 30 → 2000s else 1900s`) and the `[1900, 2100]` range gate —
is embedded as written. -/
def parse_dob_string (dateparse : String → Option (Nat × Nat × Nat))
    (date_str : String) : String × String × String :=
  let s : List Char := stripChars date_str.data
  if s = [] then ("", "", "")
  else
    match dateparse ⟨s⟩ with
    | none => ("", "", "")
    | some (d, mo, y) =>
      let y' := dob_string_year y
      if ¬ (1900 ≤ y' ∧ y' ≤ 2100) then ("", "", "")
      else (pad2 d, pad2 mo, pad4 y')

/-! ### Regex machinery

The four regexes of the source (`SHARECODE_RE`, `DOB_WORD_RE`,
`DOB_DOT_RE`, `DOB_SLASH_RE`) are embedded as deterministic scanners.
Each is locally deterministic: every quantifier's character class is
disjoint from the class that must follow it, so Python's
greedy-with-backtracking semantics coincide with the greedy-only match
implemented here.  `finditer` is Python's left-to-right, non-overlapping
scan. -/

/-- Length of the longest prefix of `cs` whose characters satisfy `p`
(the extent of a greedy `p*` / `p+` / `p{m,n}` run). -/
def runLen (p : Char → Bool) : List Char → Nat
  | [] => 0
  | c :: rest => if p c then runLen p rest + 1 else 0

/-- Whether the character at index `i` exists and is a word character. -/
def isWordAt (cs : List Char) (i : Nat) : Bool :=
  match cs.get? i with
  | some c => isWordChar c
  | none => false

/-- Word-ness of the character just before index `i` (start of string
counts as non-word). -/
def prevIsWord (cs : List Char) : Nat → Bool
  | 0 => false
  | j + 1 => isWordAt cs j

/-- The `\b` word-boundary assertion at index `i`. -/
def boundaryAt (cs : List Char) (i : Nat) : Bool :=
  prevIsWord cs i != isWordAt cs i

/-- A regex match with three capture groups: start index and the three
captured character runs. -/
structure Match3 where
  start : Nat
  g1 : List Char
  g2 : List Char
  g3 : List Char
deriving Repr, DecidableEq

/-- Match `\b(\d{2})<sep>(\d{2})<sep>(\d{4})\b` at index `i`
(`DOB_DOT_RE` with `sep = '.'`, `DOB_SLASH_RE` with `sep = '/'`).
Returns the end index and the three groups. -/
def matchSepDateAt (sep : Char) (cs : List Char) (i : Nat) :
    Option (Nat × (List Char × List Char × List Char)) :=
  if boundaryAt cs i then
    match cs.drop i with
    | d1 :: d2 :: p1 :: m1 :: m2 :: p2 :: y1 :: y2 :: y3 :: y4 :: _ =>
      if ([d1, d2, m1, m2, y1, y2, y3, y4].all isDigitChar ∧ p1 = sep ∧ p2 = sep) ∧
          boundaryAt cs (i + 10) then
        some (i + 10, ([d1, d2], [m1, m2], [y1, y2, y3, y4]))
      else none
    | _ => none
  else none

/-- Match `DOB_WORD_RE` = `\b(\d{1,2})\s+([A-ZÀ-ÿ]{3,10})\s+(\d{2,4})\b`
at index `i`.  The digit/letter runs must end exactly where the next
component begins (by disjointness of the classes, backtracking cannot
rescue any other split). -/
def matchWordDateAt (cs : List Char) (i : Nat) :
    Option (Nat × (List Char × List Char × List Char)) :=
  if ¬ boundaryAt cs i then none else
  let rest := cs.drop i
  let r1 := runLen isDigitChar rest
  if r1 = 0 ∨ r1 > 2 then none else
  let rest1 := rest.drop r1
  let s1 := runLen isSpaceChar rest1
  if s1 = 0 then none else
  let rest2 := rest1.drop s1
  let k2 := runLen isMonthLetter rest2
  if k2 < 3 ∨ k2 > 10 then none else
  let rest3 := rest2.drop k2
  let s2 := runLen isSpaceChar rest3
  if s2 = 0 then none else
  let rest4 := rest3.drop s2
  let r3 := runLen isDigitChar rest4
  if r3 < 2 ∨ r3 > 4 then none else
  let e := i + r1 + s1 + k2 + s2 + r3
  if ¬ boundaryAt cs e then none else
  some (e, (rest.take r1, rest2.take k2, rest4.take r3))

/-- Match `SHARECODE_RE` =
`\b([A-Z0-9]{3})\s*([A-Z0-9]{3})\s*([A-Z0-9]{3})\b` (IGNORECASE) at
index `i`. -/
def matchShareAt (cs : List Char) (i : Nat) :
    Option (Nat × (List Char × List Char × List Char)) :=
  if ¬ boundaryAt cs i then none else
  let rest := cs.drop i
  let g1 := rest.take 3
  if ¬ (g1.length = 3 ∧ g1.all isShareChar) then none else
  let rest1 := rest.drop 3
  let w1 := runLen isSpaceChar rest1
  let g2 := (rest1.drop w1).take 3
  if ¬ (g2.length = 3 ∧ g2.all isShareChar) then none else
  let rest2 := (rest1.drop w1).drop 3
  let w2 := runLen isSpaceChar rest2
  let g3 := (rest2.drop w2).take 3
  if ¬ (g3.length = 3 ∧ g3.all isShareChar) then none else
  let e := i + 3 + w1 + 3 + w2 + 3
  if ¬ boundaryAt cs e then none else
  some (e, (g1, g2, g3))

/-- Match `\b[A-Z0-9]{9}\b` (the bare-run fallback of
`extract_share_code_from_text`) at index `i`. -/
def matchBare9At (cs : List Char) (i : Nat) : Option (Nat × List Char) :=
  let g := (cs.drop i).take 9
  if boundaryAt cs i ∧ g.length = 9 ∧ g.all isShareChar ∧ boundaryAt cs (i + 9) then
    some (i + 9, g)
  else none

/-- One step of `re.finditer`: scan indices left to right, emitting each
match and resuming at its end (all patterns in play have positive
length).  `fuel` bounds the recursion; `finditer` supplies enough for
the whole string. -/
def finditerAux {α : Type} (matchAt : List Char → Nat → Option (Nat × α))
    (cs : List Char) : Nat → Nat → List (Nat × α)
  | 0, _ => []
  | fuel + 1, i =>
    if i < cs.length then
      match matchAt cs i with
      | some (e, g) => (i, g) :: finditerAux matchAt cs fuel (max e (i + 1))
      | none => finditerAux matchAt cs fuel (i + 1)
    else []

/-- `re.finditer pattern cs`: all non-overlapping matches, leftmost
first. -/
def finditer {α : Type} (matchAt : List Char → Nat → Option (Nat × α))
    (cs : List Char) : List (Nat × α) :=
  finditerAux matchAt cs (cs.length + 1) 0

/-- All `Match3` hits of a three-group pattern in `cs`. -/
def findMatches3 (matchAt : List Char → Nat → Option (Nat × (List Char × List Char × List Char)))
    (cs : List Char) : List Match3 :=
  (finditer matchAt cs).map (fun p => ⟨p.1, p.2.1, p.2.2.1, p.2.2.2⟩)

/-- `int` on a captured digit run. -/
def digitsToNat (l : List Char) : Nat :=
  l.foldl (fun a c => a * 10 + (c.toNat - 48)) 0

/-- Python `str.find`: index of the first occurrence of `pat` in `cs`,
`none` standing for the sentinel `-1`. -/
def findSubAux (pat : List Char) : Nat → List Char → Option Nat
  | _, [] => none
  | i, c :: rest => if pat.isPrefixOf (c :: rest) then some i else findSubAux pat (i + 1) rest

/-- Python `str.find` (top level; the empty pattern matches at 0). -/
def findSub (cs pat : List Char) : Option Nat :=
  if pat = [] then some 0 else findSubAux pat 0 cs

/-- Python truthiness of an optional integer (`None` and `0` are falsy). -/
def pyTruthyN : Option Nat → Bool
  | none => false
  | some n => n ≠ 0

/-! ### The MONTH_MAP and the date matcher -/

/-- `MONTH_MAP`: bilingual month-name lookup, exactly the keys of the
source table. -/
def month_map (s : String) : Option Nat :=
  if s = "JAN" ∨ s = "JANUARY" ∨ s = "JANVIER" then some 1
  else if s = "FEB" ∨ s = "FEBRUARY" ∨ s = "FEV" ∨ s = "FÉV" ∨ s = "FEVRIER" ∨ s = "FÉVRIER" then some 2
  else if s = "MAR" ∨ s = "MARCH" ∨ s = "MARS" then some 3
  else if s = "APR" ∨ s = "APRIL" ∨ s = "AVR" ∨ s = "AVRIL" then some 4
  else if s = "MAY" ∨ s = "MAI" then some 5
  else if s = "JUN" ∨ s = "JUNE" ∨ s = "JUIN" then some 6
  else if s = "JUL" ∨ s = "JULY" ∨ s = "JUIL" ∨ s = "JUILLET" then some 7
  else if s = "AUG" ∨ s = "AUGUST" ∨ s = "AOUT" ∨ s = "AOÛT" then some 8
  else if s = "SEP" ∨ s = "SEPT" ∨ s = "SEPTEMBER" ∨ s = "SEPTEMBRE" then some 9
  else if s = "OCT" ∨ s = "OCTOBER" ∨ s = "OCTOBRE" then some 10
  else if s = "NOV" ∨ s = "NOVEMBER" ∨ s = "NOVEMBRE" then some 11
  else if s = "DEC" ∨ s = "DECEMBER" ∨ s = "DECEMBRE" ∨ s = "DÉCEMBRE" then some 12
  else none

/-- The running best of `parse_dob_from_text`:
`(day, month, year, confidence, reason)`. -/
structure DobHit where
  day : Option Nat
  month : Option Nat
  year : Option Nat
  conf : Nat
  reason : String
deriving Repr, DecidableEq

/-- Label positions for the date matcher: first occurrence of each of
"DATE OF BIRTH", "DATE DE NAISSANCE", "DOB" in the uppercased text. -/
def dob_label_positions (t : List Char) : List Nat :=
  ["DATE OF BIRTH", "DATE DE NAISSANCE", "DOB"].filterMap (fun kw => findSub t kw.data)

/-- `score_pos`: proximity-based confidence (hundredths) from the
minimum distance to any label position; flat 0.5 with no label. -/
def score_pos (lps : List Nat) (pos : Nat) : Nat :=
  match (lps.map (fun lp => Nat.dist pos lp)).min? with
  | none => 50
  | some d => if d < 80 then 95 else if d < 200 then 85 else 65

/-- One iteration of the dotted/slashed-date loops of
`parse_dob_from_text`: range-check day and month, score, keep if
strictly better. -/
def dobSepStep (lps : List Nat) (tag : String) (best : DobHit) (m : Match3) : DobHit :=
  let d := digitsToNat m.g1
  let mo := digitsToNat m.g2
  let y := digitsToNat m.g3
  if (1 ≤ d ∧ d ≤ 31) ∧ (1 ≤ mo ∧ mo ≤ 12) then
    let conf := score_pos lps m.start
    if conf > best.conf then ⟨some d, some mo, some y, conf, tag⟩ else best
  else best

/-- One iteration of the word-month loop of `parse_dob_from_text`. -/
def dobWordStep (yy : Nat) (lps : List Nat) (best : DobHit) (m : Match3) : DobHit :=
  let d := digitsToNat m.g1
  let mon_raw := safe_upper ⟨m.g2⟩
  let y := digitsToNat m.g3
  let mon := month_map mon_raw
  if pyTruthyN mon ∧ (1 ≤ d ∧ d ≤ 31) then
    let y_norm := normalize_year_2digit y yy
    let conf := score_pos lps m.start
    if conf > best.conf then
      ⟨some d, mon, some y_norm, conf, "word_month:" ++ mon_raw.data.asString⟩
    else best
  else best

/-- The best candidate across the three date shapes (the fold portion of
`parse_dob_from_text`, before the final year-range gate).  `yy` is the
current 2-digit year read from the clock in the source. -/
def dob_best_candidate (yy : Nat) (text : String) : DobHit :=
  let t := (safe_upper text).data
  let lps := dob_label_positions t
  let b0 : DobHit := ⟨none, none, none, 0, "no_match"⟩
  let b1 := (findMatches3 (matchSepDateAt '.') t).foldl (dobSepStep lps "dot_date") b0
  let b2 := (findMatches3 (matchSepDateAt '/') t).foldl (dobSepStep lps "slash_date") b1
  (findMatches3 matchWordDateAt t).foldl (dobWordStep yy lps) b2

/-- `parse_dob_from_text`: best candidate, then the final year sanity
check (applied, as in the source, only when day and year are truthy). -/
def parse_dob_from_text (yy : Nat) (text : String) : DobHit :=
  let best := dob_best_candidate yy text
  if pyTruthyN best.day ∧ pyTruthyN best.year then
    if best.year.getD 0 < 1900 ∨ best.year.getD 0 > 2100 then
      ⟨none, none, none, 0, "year_out_of_range"⟩
    else best
  else best

/-! ### The share-code matcher -/

/-- The candidate stage of `extract_share_code_from_text`: normalized
triple-group matches, with the bare 9-run matcher as fallback when the
first regex yields nothing.  Each candidate is `(raw9, start index)`. -/
def sharecode_candidates (text : String) : List (String × Nat) :=
  let t := (safe_upper text).data
  let c1 := (findMatches3 matchShareAt t).filterMap (fun m =>
    match normalize_share_code ⟨(m.g1 ++ m.g2 ++ m.g3).map pyUpper⟩ with
    | some raw => some (raw, m.start)
    | none => none)
  if c1 = [] then
    (finditer matchBare9At t).filterMap (fun p =>
      match normalize_share_code ⟨p.2⟩ with
      | some raw => some (raw, p.1)
      | none => none)
  else c1

/-- `t.find("SHARE CODE")` on the uppercased text. -/
def sharecode_label_idx (text : String) : Option Nat :=
  findSub (safe_upper text).data "SHARE CODE".data

/-- The result triple of `extract_share_code_from_text`:
`(raw9, confidence, reason)`. -/
structure ScHit where
  raw : Option String
  conf : Nat
  reason : String
deriving Repr, DecidableEq

/-- One iteration of the scoring loop of
`extract_share_code_from_text`. -/
def scStep (lidx : Option Nat) (best : ScHit) (c : String × Nat) : ScHit :=
  let conf := match lidx with
    | none => 75
    | some li =>
      let d := Nat.dist c.2 li
      if d < 80 then 95 else if d < 200 then 85 else 75
  if conf > best.conf then ⟨some c.1, conf, "near_share_code_label"⟩ else best

/-- `extract_share_code_from_text`: candidates, then max-by-confidence
scoring against the label position. -/
def extract_share_code_from_text (text : String) : ScHit :=
  let cands := sharecode_candidates text
  if cands = [] then ⟨none, 0, "no_sharecode_match"⟩
  else cands.foldl (scStep (sharecode_label_idx text)) ⟨none, 60, "sharecode_match"⟩

/-! ### Vision fallback client

External effects are oracle parameters: `dateparse` stands for
`dateutil.parser.parse`, `remote` for one
`client.models.generate_content` round-trip followed by
`_parse_json_response` (yielding the two JSON fields, or an error when
the call raises), `render` for `pdf_bytes_to_vision_images` (PyMuPDF
rendering, which can raise), and `textOracle` for
`extract_text_layer_from_pdf_bytes` (which swallows every pdfplumber
exception, hence is total). -/

/-- An image handed to the vision model: `(bytes, mime type)`. -/
def VImage : Type := List Nat × String

/-- A parsed JSON dict returned by one `_call` tier: the two payload
fields (absent key modelled as `none`) plus the `"_model"` key that
`_call` always adds. -/
structure VFields where
  share_code_raw9 : Option String
  dob : Option String
  model : String
deriving Repr, DecidableEq

/-- The structured result of `gemini_vision_extract`. -/
structure VResult where
  share_code_raw9 : String
  dob_day : String
  dob_month : String
  dob_year : String
  notes : String
deriving Repr, DecidableEq

/-- `d.get(key, "") or ""` on an optional string field. -/
def pyGetStr : Option String → String
  | none => ""
  | some s => s

/-- One `_call(model_name)`: remote round-trip plus JSON parse (the
oracle), tagging the result with the model name as the source does via
`data["_model"] = model_name`. -/
def vcall (remote : String → Except String (Option String × Option String))
    (model_name : String) : Except String VFields :=
  match remote model_name with
  | .error e => .error e
  | .ok (sc, dob) => .ok ⟨sc, dob, model_name⟩

/-- `data = _call(name)` guarded by `try/except`: the parsed dict on
success, the empty dict (`none`) when the tier raised. -/
def tier_data (remote : String → Except String (Option String × Option String))
    (name : String) : Option VFields :=
  match vcall remote name with
  | .ok f => some f
  | .error _ => none

/-- `_missing`: true when the dict is empty (a tier that raised) or when
either the share code fails `normalize_share_code` or the DOB string
fails `parse_dob_string`. -/
def vmissing (dateparse : String → Option (Nat × Nat × Nat)) (d : Option VFields) : Bool :=
  match d with
  | none => true
  | some f =>
    let sc := normalize_share_code (pyGetStr f.share_code_raw9)
    let dob : String := ⟨stripChars (pyGetStr f.dob).data⟩
    let dmy := if dob ≠ "" then parse_dob_string dateparse dob else ("", "", "")
    ¬ (sc.isSome ∧ dmy.1 ≠ "" ∧ dmy.2.1 ≠ "" ∧ dmy.2.2 ≠ "")

/-- `get_gemini_client`: `None` when the API key is empty or the client
library failed to import; otherwise the constructor outcome (`ctor`
models `genai.Client(...)`, `none` standing for the guarded
constructor raising). -/
def get_gemini_client (apiKey : String) (libAvailable : Bool) (ctor : Option Unit) :
    Option Unit :=
  if apiKey = "" ∨ libAvailable = false then none else ctor

/-- The sequence of model tiers `gemini_vision_extract` calls: the fast
tier always, the strong tier exactly when the fast tier's result is
`_missing`. -/
def gemini_tier_calls (dateparse : String → Option (Nat × Nat × Nat))
    (remote : String → Except String (Option String × Option String))
    (fastName strongName : String) : List String :=
  if vmissing dateparse (tier_data remote fastName) then [fastName, strongName]
  else [fastName]

/-- `gemini_vision_extract`, instrumented: returns, besides the
structured result, the list of model names actually called (fast tier
always; strong tier exactly when the fast result is `_missing`).  When
the client handle is `None` the source raises `RuntimeError`, modelled
as `Except.error` with the source's message. -/
def gemini_vision_extract (client : Option Unit)
    (dateparse : String → Option (Nat × Nat × Nat))
    (remote : String → Except String (Option String × Option String))
    (fastName strongName : String) :
    Except String (VResult × List String) :=
  match client with
  | none => .error "Gemini client not available (check GEMINI_API_KEY and google-genai install)"
  | some _ =>
    let data1 : Option VFields := tier_data remote fastName
    let data : Option VFields :=
      if vmissing dateparse data1 then
        match vcall remote strongName with
        | .ok f => some f
        | .error _ => data1
      else data1
    let sc := pyGetStr ((normalize_share_code (pyGetStr (data.bind VFields.share_code_raw9))))
    let dob : String := ⟨stripChars (pyGetStr (data.bind VFields.dob)).data⟩
    let dmy := if dob ≠ "" then parse_dob_string dateparse dob else ("", "", "")
    let notes : String := ⟨stripChars ("model=" ++ (match data with
      | none => ""
      | some f => f.model)).data⟩
    .ok (⟨sc, dmy.1, dmy.2.1, dmy.2.2, notes⟩,
      gemini_tier_calls dateparse remote fastName strongName)

/-! ### Document helpers and the orchestrator -/

/-- `_is_pdf_bytes`: the byte buffer, with ASCII whitespace stripped
from the left, starts with `%PDF`. -/
def isPdfBytes (b : List Nat) : Bool :=
  ((b.dropWhile (fun x => x = 32 ∨ x = 9 ∨ x = 10 ∨ x = 13 ∨ x = 11 ∨ x = 12)).take 4)
    = [0x25, 0x50, 0x44, 0x46]

/-- ASCII `str.lower` (file extensions only). -/
def pyLower (c : Char) : Char :=
  if 65 ≤ c.toNat ∧ c.toNat ≤ 90 then Char.ofNat (c.toNat + 32) else c

/-- `Path(filename).suffix` for ordinary names: the final `.`-suffix,
`""` when there is no dot or the only dot is leading. -/
def pySuffix (filename : String) : String :=
  let cs := filename.data
  if cs.contains '.' then
    let after := (cs.reverse.takeWhile (fun c => c ≠ '.')).reverse
    if after.length + 1 = cs.length then ""
    else ⟨'.' :: after⟩
  else ""

/-- `file_bytes_to_vision_images`: empty bytes give no images; PDF bytes
go through the (fallible) renderer and come back PNG-tagged; direct
image bytes pass through with the MIME type inferred from the file
extension. -/
def file_bytes_to_vision_images (render : List Nat → Except String (List (List Nat)))
    (file_bytes : List Nat) (filename : String) : Except String (List VImage) :=
  if file_bytes = [] then .ok []
  else if isPdfBytes file_bytes then
    match render file_bytes with
    | .error e => .error e
    | .ok imgs => .ok ((imgs.filter (fun i => i ≠ [])).map (fun i => ((i, "image/png") : VImage)))
  else
    let ext : String := ⟨(pySuffix filename).data.map pyLower⟩
    let mime := if ext = ".jpg" ∨ ext = ".jpeg" then "image/jpeg"
      else if ext = ".webp" then "image/webp"
      else "image/png"
    .ok [((file_bytes, mime) : VImage)]

/-- The external world of one extraction request: the clock, dateutil,
pdfplumber, PyMuPDF, and the Gemini client with its two model tiers. -/
structure Env where
  yy : Nat
  dateparse : String → Option (Nat × Nat × Nat)
  textOracle : List Nat → String
  render : List Nat → Except String (List (List Nat))
  client : Option Unit
  remote : List VImage → List VImage → String → Except String (Option String × Option String)
  fastName : String
  strongName : String

/-- The `confidence` sub-dict of the orchestrator's result. -/
structure RtwConf where
  share_code : Nat
  dob : Nat
  share_reason : String
  dob_reason : String
  text_layer_used : Bool
deriving Repr, DecidableEq

/-- The orchestrator's result dict. -/
structure RtwResult where
  ok : Bool
  share_code_raw9 : String
  share_code_display : String
  dob_day : String
  dob_month : String
  dob_year : String
  confidence : RtwConf
  ai_used : Bool
  ai_notes : String
deriving Repr, DecidableEq

/-- The state of the two fields going into the final merge. -/
structure FieldState where
  sc_raw : Option String
  sc_conf : Nat
  sc_reason : String
  d : Option Nat
  m : Option Nat
  y : Option Nat
  dob_conf : Nat
  dob_reason : String
  ai_used : Bool
  ai_notes : String
deriving Repr, DecidableEq

/-- Python truthiness of an optional string (`None` and `""` falsy). -/
def pyTruthyS : Option String → Bool
  | none => false
  | some s => s ≠ ""

/-- The text-layer stage: text-layer extraction attempted only on PDF
bytes, empty otherwise. -/
def text_layer (env : Env) (b : List Nat) : String :=
  if isPdfBytes b then env.textOracle b else ""

/-- The threshold check of the orchestrator: the vision fallback is
needed when the share-code candidate is absent or below threshold, or
the DOB triple is not fully present or below threshold. -/
def need_ai_check (thr : Nat) (sc : ScHit) (dobHit : DobHit) : Bool :=
  (¬ pyTruthyS sc.raw ∨ sc.conf < thr) ∨
    (¬ (pyTruthyN dobHit.day ∧ pyTruthyN dobHit.month ∧ pyTruthyN dobHit.year) ∨
      dobHit.conf < thr)

/-- The body of the orchestrator's `try` block up to the vision call:
image preparation for both documents, then the (single) call into
`gemini_vision_extract`.  An `Except.error` models an exception thrown
anywhere inside the `try`. -/
def vision_attempt (env : Env) (sb db : List Nat) (sfn dfn : String) :
    Except String (VResult × List String) :=
  match file_bytes_to_vision_images env.render sb sfn with
  | .error e => .error e
  | .ok share_imgs =>
    match file_bytes_to_vision_images env.render db dfn with
    | .error e => .error e
    | .ok dob_imgs =>
      gemini_vision_extract env.client env.dateparse
        (env.remote share_imgs dob_imgs) env.fastName env.strongName

/-- How many times the `try` block reaches the call into
`gemini_vision_extract`: zero if image preparation raises first,
one otherwise (also when the call itself then raises). -/
def vision_attempt_gv (env : Env) (sb db : List Nat) (sfn dfn : String) : Nat :=
  match file_bytes_to_vision_images env.render sb sfn with
  | .error _ => 0
  | .ok _ =>
    match file_bytes_to_vision_images env.render db dfn with
    | .error _ => 0
    | .ok _ => 1

/-- The body of the orchestrator's `try` block once the vision call has
returned: merge any truthy vision value over the corresponding field,
forcing its confidence to at least 0.90 and appending `"|ai"` to its
reason. -/
def mergeVision (st : FieldState) (ai : VResult) : FieldState :=
  let st1 :=
    if ai.share_code_raw9 ≠ "" then
      { st with sc_raw := some ai.share_code_raw9,
                sc_conf := max st.sc_conf 90,
                sc_reason := st.sc_reason ++ "|ai" }
    else st
  let st2 :=
    if ai.dob_day ≠ "" ∧ ai.dob_month ≠ "" ∧ ai.dob_year ≠ "" then
      { st1 with d := some (digitsToNat ai.dob_day.data),
                 m := some (digitsToNat ai.dob_month.data),
                 y := some (digitsToNat ai.dob_year.data),
                 dob_conf := max st1.dob_conf 90,
                 dob_reason := st1.dob_reason ++ "|ai" }
    else st1
  { st2 with ai_used := true, ai_notes := ai.notes }

/-- The two fields as they stand after the text-layer stage, before any
vision merge (`ai_used = False`, empty notes). -/
def text_state (env : Env) (sb db : List Nat) : FieldState :=
  ⟨(extract_share_code_from_text (text_layer env sb)).raw,
   (extract_share_code_from_text (text_layer env sb)).conf,
   (extract_share_code_from_text (text_layer env sb)).reason,
   (parse_dob_from_text env.yy (text_layer env db)).day,
   (parse_dob_from_text env.yy (text_layer env db)).month,
   (parse_dob_from_text env.yy (text_layer env db)).year,
   (parse_dob_from_text env.yy (text_layer env db)).conf,
   (parse_dob_from_text env.yy (text_layer env db)).reason,
   false, ""⟩

/-- The final assembly of the result dict (the return statement of
`extract_rtw_fields`): `ok` is always `True`. -/
def assemble (text_share text_dob : String) (st : FieldState) : RtwResult :=
  { ok := true
    share_code_raw9 := pyGetStr st.sc_raw
    share_code_display :=
      if pyTruthyS st.sc_raw then format_share_code_spaced (pyGetStr st.sc_raw) else ""
    dob_day := if pyTruthyN st.d then pad2 (st.d.getD 0) else ""
    dob_month := if pyTruthyN st.m then pad2 (st.m.getD 0) else ""
    dob_year := if pyTruthyN st.y then pad4 (st.y.getD 0) else ""
    confidence :=
      ⟨st.sc_conf, st.dob_conf, st.sc_reason, st.dob_reason,
        stripChars text_share.data ≠ [] ∨ stripChars text_dob.data ≠ []⟩
    ai_used := st.ai_used
    ai_notes := st.ai_notes }

/-- `extract_rtw_fields`, instrumented: returns the result dict together
with the number of times `gemini_vision_extract` was invoked. -/
def extract_rtw_fields (env : Env) (share_file_bytes dob_file_bytes : List Nat)
    (share_filename dob_filename : String) (conf_threshold : Nat) :
    RtwResult × Nat :=
  let text_share := text_layer env share_file_bytes
  let text_dob := text_layer env dob_file_bytes
  let sc := extract_share_code_from_text text_share
  let dobHit := parse_dob_from_text env.yy text_dob
  let st0 : FieldState := text_state env share_file_bytes dob_file_bytes
  let st : FieldState :=
    if need_ai_check conf_threshold sc dobHit then
      match vision_attempt env share_file_bytes dob_file_bytes share_filename dob_filename with
      | .error e => { st0 with ai_notes := "AI fallback failed: " ++ e }
      | .ok (ai, _) => mergeVision st0 ai
    else st0
  let gv : Nat :=
    if need_ai_check conf_threshold sc dobHit then
      vision_attempt_gv env share_file_bytes dob_file_bytes share_filename dob_filename
    else 0
  (assemble text_share text_dob st, gv)

/-! ### Inputs and validity predicates used by the theorems below -/

/-- The day/month validity condition of the dotted/slashed-date loops. -/
def dobValidSep (m : Match3) : Bool :=
  (1 ≤ digitsToNat m.g1 ∧ digitsToNat m.g1 ≤ 31) ∧
    (1 ≤ digitsToNat m.g2 ∧ digitsToNat m.g2 ≤ 12)

/-- The validity condition of the word-month loop. -/
def dobValidWord (m : Match3) : Bool :=
  pyTruthyN (month_map (safe_upper ⟨m.g2⟩)) ∧
    (1 ≤ digitsToNat m.g1 ∧ digitsToNat m.g1 ≤ 31)

/-- The text used to refute C3: an out-of-range high-confidence dotted
date next to the DOB label, and a valid in-range slashed date more than
200 characters away. -/
def c3text : String := "DOB 01.01.2500 " ++ ⟨List.replicate 190 'X'⟩ ++ " 02/03/1990"

/-- A fully inert environment: no text layer, no API key (client
`None`), so the vision attempt raises `RuntimeError`. -/
def c5env : Env :=
  ⟨25, fun _ => none, fun _ => "", fun _ => .ok [], none,
   fun _ _ _ => .ok (none, none), "F", "S"⟩

/-- The environment refuting C1: the share document's text layer yields
a labelled candidate at confidence 0.95 (≥ the 0.80 threshold), the DOB
document yields nothing (forcing escalation), and the vision model
returns a different, valid share code. -/
def c1env : Env :=
  ⟨25, fun _ => none, fun _ => "SHARE CODE: ABC 123 XY9", fun _ => .ok [], some (),
   fun _ _ _ => .ok (some "ZZZ999AA1", none), "F", "S"⟩


/-! ### Helper lemmas -/

theorem pyUpper_fix {c : Char} (h : isAZ09 c = true) : pyUpper c = c := by
  simp only [isAZ09, decide_eq_true_eq] at h
  unfold pyUpper
  rw [if_neg (by omega), if_neg (by omega)]

theorem cleanShare_all (l : List Char) : (cleanShare l).all isAZ09 = true := by
  simp only [cleanShare, List.all_eq_true]
  intro x hx
  exact (List.mem_filter.mp hx).2

theorem cleanShare_of_all : ∀ {l : List Char}, (∀ c ∈ l, isAZ09 c = true) → cleanShare l = l
  | [], _ => rfl
  | c :: rest, h => by
    have hc : isAZ09 c = true := h c (List.mem_cons_self c rest)
    show ((c :: rest).map pyUpper).filter isAZ09 = c :: rest
    rw [List.map_cons, pyUpper_fix hc, List.filter_cons_of_pos hc]
    exact congrArg (c :: ·) (cleanShare_of_all (fun x hx => h x (List.mem_cons_of_mem c hx)))

theorem cleanShare_append (l1 l2 : List Char) :
    cleanShare (l1 ++ l2) = cleanShare l1 ++ cleanShare l2 := by
  simp [cleanShare]

theorem cleanShare_space_cons (l : List Char) : cleanShare (' ' :: l) = cleanShare l := by
  show ((' ' :: l).map pyUpper).filter isAZ09 = cleanShare l
  rw [List.map_cons]
  have h1 : pyUpper ' ' = ' ' := rfl
  rw [h1, List.filter_cons_of_neg (by decide)]
  rfl

theorem append_ne_empty_left {s t : String} (h : s.data ≠ []) : s ++ t ≠ "" := by
  intro he
  apply h
  have hd : (s ++ t).data = ([] : List Char) := congrArg String.data he
  rw [String.data_append] at hd
  exact (List.append_eq_nil.mp hd).1

/-! ### C7 -/

/-- C7: for every input string, share-code normalization uppercases,
strips every character outside `[A-Z0-9]`, returns exactly the stripped
form when it has 9 characters (necessarily all `[A-Z0-9]`), and rejects
every input whose stripped form is not exactly 9 such characters. -/
theorem C7_normalize_strips_and_gates (s : String) :
    normalize_share_code s =
      (if (cleanShare s.data).length = 9 ∧ (cleanShare s.data).all isAZ09 = true
       then some ⟨cleanShare s.data⟩ else none) := by
  by_cases hs : s = ""
  · subst hs
    decide
  · rw [normalize_share_code, if_neg hs]
    by_cases h9 : (cleanShare s.data).length = 9
    · simp [h9, cleanShare_all s.data]
    · simp [h9]

/-! ### C8 -/

/-- C8: for every valid 9-character share code over `[A-Z0-9]`,
normalizing the spaced display form reproduces the original code:
`normalize(display(x)) = x`. -/
theorem C8_display_roundtrip (x : String) (h9 : x.data.length = 9)
    (hAZ : x.data.all isAZ09 = true) :
    normalize_share_code (format_share_code_spaced x) = some x := by
  have hall : ∀ c ∈ x.data, isAZ09 c = true := List.all_eq_true.mp hAZ
  have hxne : x ≠ "" := by
    intro h
    rw [h] at h9
    simp at h9
  have hclean : cleanShare x.data = x.data := cleanShare_of_all hall
  have hnorm : normalize_share_code x = some x := by
    rw [normalize_share_code, if_neg hxne]
    simp only [hclean, h9]
    rw [if_neg (by omega), if_neg (by simp [hAZ])]
  have hfmt : format_share_code_spaced x =
      ⟨x.data.take 3 ++ (' ' :: (x.data.drop 3).take 3) ++ (' ' :: (x.data.drop 6).take 3)⟩ := by
    rw [format_share_code_spaced, hnorm]
    show (if x = "" then "" else if x.length < 9 then x
      else ⟨x.data.take 3 ++ (' ' :: (x.data.drop 3).take 3) ++ (' ' :: (x.data.drop 6).take 3)⟩) = _
    rw [if_neg hxne, if_neg (by show ¬ x.data.length < 9; omega)]
  set z : String := ⟨x.data.take 3 ++ (' ' :: (x.data.drop 3).take 3) ++ (' ' :: (x.data.drop 6).take 3)⟩ with hz
  have hzdata : z.data = x.data.take 3 ++ (' ' :: (x.data.drop 3).take 3) ++ (' ' :: (x.data.drop 6).take 3) := rfl
  have hcleanz : cleanShare z.data = x.data := by
    rw [hzdata, cleanShare_append, cleanShare_append, cleanShare_space_cons, cleanShare_space_cons]
    have t1 : ∀ c ∈ x.data.take 3, isAZ09 c = true :=
      fun c hc => hall c (List.take_subset 3 x.data hc)
    have t2 : ∀ c ∈ (x.data.drop 3).take 3, isAZ09 c = true :=
      fun c hc => hall c (List.drop_subset 3 x.data (List.take_subset 3 _ hc))
    have t3 : ∀ c ∈ (x.data.drop 6).take 3, isAZ09 c = true :=
      fun c hc => hall c (List.drop_subset 6 x.data (List.take_subset 3 _ hc))
    rw [cleanShare_of_all t1, cleanShare_of_all t2, cleanShare_of_all t3]
    have hd6 : (x.data.drop 6).take 3 = x.data.drop 6 := by
      apply List.take_of_length_le
      simp [h9]
    rw [hd6]
    have hdd : x.data.drop 6 = (x.data.drop 3).drop 3 := by
      rw [List.drop_drop]
    rw [hdd, List.append_assoc, List.take_append_drop, List.take_append_drop]
  have hzne : z ≠ "" := by
    intro h
    have hd : z.data = ([] : List Char) := congrArg String.data h
    rw [hzdata] at hd
    simp at hd
  rw [hfmt]
  rw [normalize_share_code, if_neg hzne]
  show (if (cleanShare z.data).length ≠ 9 then none
    else if ¬ (cleanShare z.data).all isAZ09 = true then none else some ⟨cleanShare z.data⟩) = some x
  rw [hcleanz]
  rw [if_neg (by omega), if_neg (by simp [hAZ])]

/-- Witness for C8 at the concrete code `ABC123XY9`. -/
theorem C8_display_roundtrip_witness :
    ("ABC123XY9" : String).data.length = 9 ∧
    ("ABC123XY9" : String).data.all isAZ09 = true ∧
    normalize_share_code (format_share_code_spaced "ABC123XY9") = some "ABC123XY9" :=
  ⟨by decide, by decide, C8_display_roundtrip "ABC123XY9" (by decide) (by decide)⟩

/-! ### C4 -/

/-- C4 counterexample: with the current two-digit year being 25, the
claim's sliding rule demands `28 → 1928` on every path (28 > 25), and
`normalize_year_2digit` indeed gives 1928 — but the `parse_dob_string`
path expands 28 to 2028 via its fixed cutoff at 30, so not every
date-parsing path follows the sliding rule. -/
theorem C4_counterexample :
    (28 > 25 ∧ normalize_year_2digit 28 25 = 1928) ∧
    (parse_dob_string (fun _ => some (5, 6, 28)) "05/06/0028").2.2 = "2028" ∧
    (2028 : Nat) ≠ 1928 := by
  decide

/-- C4 amended: `normalize_year_2digit` (the text-layer word-month path)
follows the sliding rule — greater than the current two-digit year means
1900s, otherwise (equality included) 2000s — but `parse_dob_string` (the
path applied to vision-returned date strings) uses a fixed cutoff
instead: two-digit years up to 30 expand to the 2000s and years 31–99 to
the 1900s, independent of the current year. -/
theorem C4_amended (y yy : Nat) (hy : y ≤ 99) :
    normalize_year_2digit y yy = (if y > yy then 1900 + y else 2000 + y) ∧
    (parse_dob_string (fun _ => some (1, 1, y)) "x").2.2
      = pad4 (if y ≤ 30 then 2000 + y else 1900 + y) := by
  constructor
  · rw [normalize_year_2digit, if_pos (by omega)]
  · have hrange : 1900 ≤ dob_string_year y ∧ dob_string_year y ≤ 2100 := by
      unfold dob_string_year
      split_ifs <;> omega
    show (if ¬ (1900 ≤ dob_string_year y ∧ dob_string_year y ≤ 2100) then ("", "", "")
      else (pad2 1, pad2 1, pad4 (dob_string_year y))).2.2 = _
    rw [if_neg (not_not_intro hrange)]
    show pad4 (dob_string_year y) = _
    exact congrArg pad4 (by unfold dob_string_year; rw [if_pos (by omega)])

/-- Witness for C4 amended at `y = 96`, `yy = 25`. -/
theorem C4_amended_witness :
    normalize_year_2digit 96 25 = (if 96 > 25 then 1900 + 96 else 2000 + 96) ∧
    (parse_dob_string (fun _ => some (1, 1, 96)) "x").2.2
      = pad4 (if 96 ≤ 30 then 2000 + 96 else 1900 + 96) :=
  C4_amended 96 25 (by decide)

/-! ### C3 -/

theorem dobSepStep_conf_le (lps : List Nat) (tag : String) (b : DobHit) (m : Match3) :
    b.conf ≤ (dobSepStep lps tag b m).conf := by
  unfold dobSepStep
  dsimp only
  split_ifs with h1 h2
  · exact Nat.le_of_lt h2
  · exact Nat.le_refl _
  · exact Nat.le_refl _

theorem dobWordStep_conf_le (yy : Nat) (lps : List Nat) (b : DobHit) (m : Match3) :
    b.conf ≤ (dobWordStep yy lps b m).conf := by
  unfold dobWordStep
  dsimp only
  split_ifs with h1 h2
  · exact Nat.le_of_lt h2
  · exact Nat.le_refl _
  · exact Nat.le_refl _

theorem dobSepStep_conf_ge (lps : List Nat) (tag : String) (b : DobHit) (m : Match3)
    (h : dobValidSep m = true) :
    score_pos lps m.start ≤ (dobSepStep lps tag b m).conf := by
  have hv := of_decide_eq_true h
  unfold dobSepStep
  dsimp only
  rw [if_pos hv]
  split_ifs with h2
  · exact Nat.le_refl _
  · omega

theorem dobWordStep_conf_ge (yy : Nat) (lps : List Nat) (b : DobHit) (m : Match3)
    (h : dobValidWord m = true) :
    score_pos lps m.start ≤ (dobWordStep yy lps b m).conf := by
  have hv := of_decide_eq_true h
  unfold dobWordStep
  dsimp only
  rw [if_pos hv]
  split_ifs with h2
  · exact Nat.le_refl _
  · omega

theorem foldl_conf_mono {α : Type} (step : DobHit → α → DobHit)
    (hstep : ∀ b a, b.conf ≤ (step b a).conf) :
    ∀ (l : List α) (b : DobHit), b.conf ≤ (l.foldl step b).conf
  | [], _ => Nat.le_refl _
  | a :: l, b => Nat.le_trans (hstep b a) (foldl_conf_mono step hstep l (step b a))

theorem foldl_conf_ge_elem {α : Type} (step : DobHit → α → DobHit)
    (hmono : ∀ b a, b.conf ≤ (step b a).conf)
    (score : α → Nat) (P : α → Bool)
    (helem : ∀ b a, P a = true → score a ≤ (step b a).conf) :
    ∀ (l : List α) (b : DobHit), ∀ a ∈ l, P a = true → score a ≤ (l.foldl step b).conf
  | [], _ => by intro a ha; cases ha
  | a' :: l, b => by
    intro a ha hPa
    rcases List.mem_cons.mp ha with rfl | hmem
    · exact Nat.le_trans (helem b a hPa) (foldl_conf_mono step hmono l (step b a))
    · exact foldl_conf_ge_elem step hmono score P helem l (step b a') a hmem hPa

set_option maxRecDepth 40000 in
/-- C3 counterexample: the input holds exactly one slashed-date match,
the valid in-range `02/03/1990` — which the claim says must be returned
— yet because the higher-confidence dotted match `01.01.2500` (nearest
the label) has an out-of-range year, the matcher discards everything and
returns no candidate at all. -/
theorem C3_counterexample :
    parse_dob_from_text 25 c3text = ⟨none, none, none, 0, "year_out_of_range"⟩ ∧
    (findMatches3 (matchSepDateAt '/') (safe_upper c3text).data).map
        (fun m => (digitsToNat m.g1, digitsToNat m.g2, digitsToNat m.g3))
      = [(2, 3, 1990)] := by
  decide

/-- C3 amended: the matcher keeps the single highest-confidence match
across the three shapes with **no per-match year filtering** (the best
candidate's confidence dominates the proximity score of every valid
match of every shape); the `[1900, 2100]` check is applied once, to that
best match alone: if its year is out of range the whole extraction
returns no candidate with reason `"year_out_of_range"` — even when a
lower-confidence in-range match exists — and otherwise the best match is
returned unchanged. -/
theorem C3_amended (yy : Nat) (text : String) :
    (∀ m ∈ findMatches3 (matchSepDateAt '.') (safe_upper text).data, dobValidSep m = true →
      score_pos (dob_label_positions (safe_upper text).data) m.start
        ≤ (dob_best_candidate yy text).conf) ∧
    (∀ m ∈ findMatches3 (matchSepDateAt '/') (safe_upper text).data, dobValidSep m = true →
      score_pos (dob_label_positions (safe_upper text).data) m.start
        ≤ (dob_best_candidate yy text).conf) ∧
    (∀ m ∈ findMatches3 matchWordDateAt (safe_upper text).data, dobValidWord m = true →
      score_pos (dob_label_positions (safe_upper text).data) m.start
        ≤ (dob_best_candidate yy text).conf) ∧
    (pyTruthyN (dob_best_candidate yy text).day = true →
      pyTruthyN (dob_best_candidate yy text).year = true →
      ((dob_best_candidate yy text).year.getD 0 < 1900 ∨
        2100 < (dob_best_candidate yy text).year.getD 0) →
      parse_dob_from_text yy text = ⟨none, none, none, 0, "year_out_of_range"⟩) ∧
    ((pyTruthyN (dob_best_candidate yy text).day = true →
      pyTruthyN (dob_best_candidate yy text).year = true →
      1900 ≤ (dob_best_candidate yy text).year.getD 0 ∧
        (dob_best_candidate yy text).year.getD 0 ≤ 2100) →
      parse_dob_from_text yy text = dob_best_candidate yy text) := by
  set t := (safe_upper text).data with ht
  set lps := dob_label_positions t with hlps
  set b0 : DobHit := ⟨none, none, none, 0, "no_match"⟩ with hb0
  set l1 := findMatches3 (matchSepDateAt '.') t with hl1
  set l2 := findMatches3 (matchSepDateAt '/') t with hl2
  set l3 := findMatches3 matchWordDateAt t with hl3
  have hbc : dob_best_candidate yy text =
      l3.foldl (dobWordStep yy lps)
        (l2.foldl (dobSepStep lps "slash_date") (l1.foldl (dobSepStep lps "dot_date") b0)) := rfl
  refine ⟨?_, ?_, ?_, ?_, ?_⟩
  · intro m hm hv
    rw [hbc]
    refine Nat.le_trans ?_ (foldl_conf_mono _ (dobWordStep_conf_le yy lps) l3 _)
    refine Nat.le_trans ?_ (foldl_conf_mono _ (dobSepStep_conf_le lps "slash_date") l2 _)
    exact foldl_conf_ge_elem _ (dobSepStep_conf_le lps "dot_date") (fun m => score_pos lps m.start)
      dobValidSep (fun b a ha => dobSepStep_conf_ge lps "dot_date" b a ha) l1 b0 m hm hv
  · intro m hm hv
    rw [hbc]
    refine Nat.le_trans ?_ (foldl_conf_mono _ (dobWordStep_conf_le yy lps) l3 _)
    exact foldl_conf_ge_elem _ (dobSepStep_conf_le lps "slash_date") (fun m => score_pos lps m.start)
      dobValidSep (fun b a ha => dobSepStep_conf_ge lps "slash_date" b a ha) l2 _ m hm hv
  · intro m hm hv
    rw [hbc]
    exact foldl_conf_ge_elem _ (dobWordStep_conf_le yy lps) (fun m => score_pos lps m.start)
      dobValidWord (fun b a ha => dobWordStep_conf_ge yy lps b a ha) l3 _ m hm hv
  · intro hd hy hout
    show (if pyTruthyN (dob_best_candidate yy text).day ∧ pyTruthyN (dob_best_candidate yy text).year
        then if (dob_best_candidate yy text).year.getD 0 < 1900 ∨
            (dob_best_candidate yy text).year.getD 0 > 2100
          then (⟨none, none, none, 0, "year_out_of_range"⟩ : DobHit)
          else dob_best_candidate yy text
        else dob_best_candidate yy text) = ⟨none, none, none, 0, "year_out_of_range"⟩
    rw [if_pos ⟨hd, hy⟩, if_pos hout]
  · intro hin
    show (if pyTruthyN (dob_best_candidate yy text).day ∧ pyTruthyN (dob_best_candidate yy text).year
        then if (dob_best_candidate yy text).year.getD 0 < 1900 ∨
            (dob_best_candidate yy text).year.getD 0 > 2100
          then (⟨none, none, none, 0, "year_out_of_range"⟩ : DobHit)
          else dob_best_candidate yy text
        else dob_best_candidate yy text) = dob_best_candidate yy text
    by_cases hdy : pyTruthyN (dob_best_candidate yy text).day = true ∧
        pyTruthyN (dob_best_candidate yy text).year = true
    · have hr := hin hdy.1 hdy.2
      rw [if_pos hdy, if_neg (by omega)]
    · rw [if_neg hdy]

/-- Witness for C3 amended: the gate fires on `"DOB 01.01.2500"`. -/
theorem C3_amended_witness :
    parse_dob_from_text 25 "DOB 01.01.2500" = ⟨none, none, none, 0, "year_out_of_range"⟩ :=
  (C3_amended 25 "DOB 01.01.2500").2.2.2.1 (by decide) (by decide) (by decide)

/-! ### C10 -/

theorem scStep_none_stay (l : List (String × Nat)) (raw : String) :
    l.foldl (scStep none) ⟨some raw, 75, "near_share_code_label"⟩
      = ⟨some raw, 75, "near_share_code_label"⟩ := by
  induction l with
  | nil => rfl
  | cons c rest ih =>
    rw [List.foldl_cons]
    have hstep : scStep none ⟨some raw, 75, "near_share_code_label"⟩ c
        = ⟨some raw, 75, "near_share_code_label"⟩ := by
      unfold scStep
      dsimp only
      rw [if_neg (by omega)]
    rw [hstep, ih]

/-- C10: whenever the text yields at least one valid share-code
candidate but the literal label `"SHARE CODE"` is absent, the matcher
returns the first candidate with confidence exactly 0.75 — and the
reason tag is nonetheless `"near_share_code_label"`, the label-proximity
reason, even though no label is present. -/
theorem C10_no_label_first_candidate (text : String)
    (hne : sharecode_candidates text ≠ [])
    (hlab : sharecode_label_idx text = none) :
    extract_share_code_from_text text =
      ⟨some ((sharecode_candidates text).headD ("", 0)).1, 75, "near_share_code_label"⟩ := by
  obtain ⟨c, rest, hcr⟩ := List.exists_cons_of_ne_nil hne
  simp only [extract_share_code_from_text]
  rw [hcr, hlab]
  rw [if_neg (List.cons_ne_nil c rest)]
  rw [List.foldl_cons]
  have hstep : scStep none ⟨none, 60, "sharecode_match"⟩ c
      = ⟨some c.1, 75, "near_share_code_label"⟩ := by
    unfold scStep
    dsimp only
    rw [if_pos (by omega)]
  rw [hstep, scStep_none_stay, List.headD_cons]

/-- Witness for C10: two bare 9-character candidates, no label. -/
theorem C10_no_label_first_candidate_witness :
    extract_share_code_from_text "code ABC123XY9 and WWW222ZZ1" =
      ⟨some "ABC123XY9", 75, "near_share_code_label"⟩ :=
  (C10_no_label_first_candidate "code ABC123XY9 and WWW222ZZ1"
    (by decide) (by decide)).trans (by decide)

/-! ### C2 -/

/-- C2 counterexample: with the client library missing, the module
client is `None` — and a call into `gemini_vision_extract` then raises
`RuntimeError` (modelled `.error`) instead of returning an empty
result. -/
theorem C2_counterexample :
    get_gemini_client "some-key" false (some ()) = none ∧
    gemini_vision_extract (get_gemini_client "some-key" false (some ()))
        (fun _ => none) (fun _ => .ok (none, none)) "F" "S"
      = .error "Gemini client not available (check GEMINI_API_KEY and google-genai install)" :=
  ⟨rfl, rfl⟩

/-- C2 amended: with the API credential absent or the client library
missing, `get_gemini_client` returns `None`, and every call into
`gemini_vision_extract` with that `None` client raises
`RuntimeError("Gemini client not available …")` rather than returning an
empty result; the orchestrator catches this exception (see C5), so only
at the orchestrator level is "no vision available" a non-fatal, empty
outcome. -/
theorem C2_amended (apiKey : String) (lib : Bool) (ctor : Option Unit)
    (dateparse : String → Option (Nat × Nat × Nat))
    (remote : String → Except String (Option String × Option String))
    (fastName strongName : String)
    (h : apiKey = "" ∨ lib = false) :
    get_gemini_client apiKey lib ctor = none ∧
    gemini_vision_extract (get_gemini_client apiKey lib ctor) dateparse remote
        fastName strongName
      = .error "Gemini client not available (check GEMINI_API_KEY and google-genai install)" := by
  have hc : get_gemini_client apiKey lib ctor = none := by
    unfold get_gemini_client
    rw [if_pos h]
  refine ⟨hc, ?_⟩
  rw [hc]
  rfl

/-- Witness for C2 amended: empty API key. -/
theorem C2_amended_witness :
    get_gemini_client "" true (some ()) = none ∧
    gemini_vision_extract (get_gemini_client "" true (some ())) (fun _ => none)
        (fun _ => .ok (none, none)) "F" "S"
      = .error "Gemini client not available (check GEMINI_API_KEY and google-genai install)" :=
  C2_amended "" true (some ()) (fun _ => none) (fun _ => .ok (none, none)) "F" "S" (Or.inl rfl)

/-! ### C6 -/

/-- C6: every successful vision-fallback request calls the fast model
first, calls the strong model exactly once if and only if the fast
tier's result is `_missing` (share code not normalizing to 9 characters,
or date not parsing to a full day/month/year, or the fast call raised),
and never makes a third model call. -/
theorem C6_two_tier (dateparse : String → Option (Nat × Nat × Nat))
    (remote : String → Except String (Option String × Option String))
    (fastName strongName : String) (res : VResult) (calls : List String)
    (h : gemini_vision_extract (some ()) dateparse remote fastName strongName
      = .ok (res, calls)) :
    calls.head? = some fastName ∧ calls.length ≤ 2 ∧
      calls = (if vmissing dateparse (tier_data remote fastName) = true
               then [fastName, strongName] else [fastName]) := by
  have hc : calls = gemini_tier_calls dateparse remote fastName strongName := by
    have hp := congrArg (fun e : Except String (VResult × List String) =>
      match e with
      | .ok p => p.2
      | .error _ => ([] : List String)) h
    exact hp.symm
  have hcif : calls = (if vmissing dateparse (tier_data remote fastName) = true
      then [fastName, strongName] else [fastName]) := by
    rw [hc]
    unfold gemini_tier_calls
    by_cases hm : vmissing dateparse (tier_data remote fastName) = true
    · rw [if_pos hm]
    · rw [if_neg hm]
  refine ⟨?_, ?_, hcif⟩ <;>
    cases hm : vmissing dateparse (tier_data remote fastName) <;> simp [hcif, hm]

/-- Witness for C6: a fast tier returning an empty JSON object, so the
strong tier is called once. -/
theorem C6_two_tier_witness :
    ((["F", "S"] : List String).head? = some "F") ∧
    ((["F", "S"] : List String).length ≤ 2) ∧
    (["F", "S"] : List String)
      = (if vmissing (fun _ => none) (tier_data (fun _ => Except.ok (none, none)) "F") = true
         then ["F", "S"] else ["F"]) :=
  C6_two_tier (fun _ => none) (fun _ => Except.ok (none, none)) "F" "S"
    ⟨"", "", "", "", "model=S"⟩ ["F", "S"] rfl

/-! ### Decomposition and projection lemmas for the orchestrator -/

theorem extract_rtw_fields_eq (env : Env) (sb db : List Nat) (sfn dfn : String) (thr : Nat) :
    extract_rtw_fields env sb db sfn dfn thr
      = (assemble (text_layer env sb) (text_layer env db)
          (if need_ai_check thr (extract_share_code_from_text (text_layer env sb))
              (parse_dob_from_text env.yy (text_layer env db)) = true
           then match vision_attempt env sb db sfn dfn with
                | .error e => { text_state env sb db with ai_notes := "AI fallback failed: " ++ e }
                | .ok (ai, _) => mergeVision (text_state env sb db) ai
           else text_state env sb db),
         if need_ai_check thr (extract_share_code_from_text (text_layer env sb))
             (parse_dob_from_text env.yy (text_layer env db)) = true
         then vision_attempt_gv env sb db sfn dfn else 0) := rfl

theorem assemble_ok (t1 t2 : String) (st : FieldState) : (assemble t1 t2 st).ok = true := rfl

theorem assemble_ai_used (t1 t2 : String) (st : FieldState) :
    (assemble t1 t2 st).ai_used = st.ai_used := rfl

theorem assemble_ai_notes (t1 t2 : String) (st : FieldState) :
    (assemble t1 t2 st).ai_notes = st.ai_notes := rfl

theorem assemble_share_raw9 (t1 t2 : String) (st : FieldState) :
    (assemble t1 t2 st).share_code_raw9 = pyGetStr st.sc_raw := rfl

theorem assemble_conf_share (t1 t2 : String) (st : FieldState) :
    (assemble t1 t2 st).confidence.share_code = st.sc_conf := rfl

theorem assemble_conf_share_reason (t1 t2 : String) (st : FieldState) :
    (assemble t1 t2 st).confidence.share_reason = st.sc_reason := rfl

theorem assemble_conf_dob (t1 t2 : String) (st : FieldState) :
    (assemble t1 t2 st).confidence.dob = st.dob_conf := rfl

theorem assemble_conf_dob_reason (t1 t2 : String) (st : FieldState) :
    (assemble t1 t2 st).confidence.dob_reason = st.dob_reason := rfl

theorem assemble_dob_day (t1 t2 : String) (st : FieldState) :
    (assemble t1 t2 st).dob_day = (if pyTruthyN st.d then pad2 (st.d.getD 0) else "") := rfl

theorem assemble_dob_month (t1 t2 : String) (st : FieldState) :
    (assemble t1 t2 st).dob_month = (if pyTruthyN st.m then pad2 (st.m.getD 0) else "") := rfl

theorem assemble_dob_year (t1 t2 : String) (st : FieldState) :
    (assemble t1 t2 st).dob_year = (if pyTruthyN st.y then pad4 (st.y.getD 0) else "") := rfl

theorem text_state_sc_raw (env : Env) (sb db : List Nat) :
    (text_state env sb db).sc_raw = (extract_share_code_from_text (text_layer env sb)).raw := rfl

theorem text_state_sc_conf (env : Env) (sb db : List Nat) :
    (text_state env sb db).sc_conf = (extract_share_code_from_text (text_layer env sb)).conf := rfl

theorem text_state_sc_reason (env : Env) (sb db : List Nat) :
    (text_state env sb db).sc_reason
      = (extract_share_code_from_text (text_layer env sb)).reason := rfl

theorem text_state_d (env : Env) (sb db : List Nat) :
    (text_state env sb db).d = (parse_dob_from_text env.yy (text_layer env db)).day := rfl

theorem text_state_m (env : Env) (sb db : List Nat) :
    (text_state env sb db).m = (parse_dob_from_text env.yy (text_layer env db)).month := rfl

theorem text_state_y (env : Env) (sb db : List Nat) :
    (text_state env sb db).y = (parse_dob_from_text env.yy (text_layer env db)).year := rfl

theorem text_state_dob_conf (env : Env) (sb db : List Nat) :
    (text_state env sb db).dob_conf = (parse_dob_from_text env.yy (text_layer env db)).conf := rfl

theorem text_state_dob_reason (env : Env) (sb db : List Nat) :
    (text_state env sb db).dob_reason
      = (parse_dob_from_text env.yy (text_layer env db)).reason := rfl

/-! ### C9 -/

/-- C9: for every pair of input byte buffers and filenames (empty bytes,
non-PDF bytes and malformed PDFs included — all captured by the
quantification over byte lists and oracle behaviours), the extraction
entry point returns a result whose `ok` field is `True`; no input
produces `ok = False`. -/
theorem C9_always_ok (env : Env) (sb db : List Nat) (sfn dfn : String) (thr : Nat) :
    (extract_rtw_fields env sb db sfn dfn thr).1.ok = true := rfl

/-! ### C5 -/

theorem vision_attempt_gv_of_ok {env : Env} {sb db : List Nat} {sfn dfn : String}
    {p : VResult × List String} (h : vision_attempt env sb db sfn dfn = .ok p) :
    vision_attempt_gv env sb db sfn dfn = 1 := by
  unfold vision_attempt at h
  unfold vision_attempt_gv
  cases h1 : file_bytes_to_vision_images env.render sb sfn with
  | error e =>
    rw [h1] at h
    exact Except.noConfusion h
  | ok si =>
    rw [h1] at h
    cases h2 : file_bytes_to_vision_images env.render db dfn with
    | error e =>
      rw [h2] at h
      exact Except.noConfusion h
    | ok di => rfl

set_option maxHeartbeats 2000000 in
/-- C5: whenever the vision fallback is needed and its `try` block
raises (image preparation or the model call), the orchestrator still
returns `ok = true`, with exactly the text-layer candidates (possibly
empty) in every field, `ai_used = false`, and a non-empty diagnostic
note carrying the exception text. -/
theorem C5_vision_failure_nonfatal (env : Env) (sb db : List Nat) (sfn dfn : String)
    (thr : Nat) (e : String)
    (hneed : need_ai_check thr (extract_share_code_from_text (text_layer env sb))
      (parse_dob_from_text env.yy (text_layer env db)) = true)
    (hfail : vision_attempt env sb db sfn dfn = .error e) :
    (extract_rtw_fields env sb db sfn dfn thr).1.ok = true ∧
    (extract_rtw_fields env sb db sfn dfn thr).1.ai_used = false ∧
    (extract_rtw_fields env sb db sfn dfn thr).1.ai_notes = "AI fallback failed: " ++ e ∧
    (extract_rtw_fields env sb db sfn dfn thr).1.ai_notes ≠ "" ∧
    (extract_rtw_fields env sb db sfn dfn thr).1.share_code_raw9
      = pyGetStr (extract_share_code_from_text (text_layer env sb)).raw ∧
    (extract_rtw_fields env sb db sfn dfn thr).1.confidence.share_code
      = (extract_share_code_from_text (text_layer env sb)).conf ∧
    (extract_rtw_fields env sb db sfn dfn thr).1.confidence.share_reason
      = (extract_share_code_from_text (text_layer env sb)).reason ∧
    (extract_rtw_fields env sb db sfn dfn thr).1.dob_day
      = (if pyTruthyN (parse_dob_from_text env.yy (text_layer env db)).day
         then pad2 ((parse_dob_from_text env.yy (text_layer env db)).day.getD 0) else "") ∧
    (extract_rtw_fields env sb db sfn dfn thr).1.dob_month
      = (if pyTruthyN (parse_dob_from_text env.yy (text_layer env db)).month
         then pad2 ((parse_dob_from_text env.yy (text_layer env db)).month.getD 0) else "") ∧
    (extract_rtw_fields env sb db sfn dfn thr).1.dob_year
      = (if pyTruthyN (parse_dob_from_text env.yy (text_layer env db)).year
         then pad4 ((parse_dob_from_text env.yy (text_layer env db)).year.getD 0) else "") ∧
    (extract_rtw_fields env sb db sfn dfn thr).1.confidence.dob
      = (parse_dob_from_text env.yy (text_layer env db)).conf := by
  have hres : (extract_rtw_fields env sb db sfn dfn thr).1
      = assemble (text_layer env sb) (text_layer env db)
          { text_state env sb db with ai_notes := "AI fallback failed: " ++ e } := by
    rw [extract_rtw_fields_eq, if_pos hneed, hfail]
  rw [hres, assemble_ok, assemble_ai_used, assemble_ai_notes, assemble_share_raw9,
    assemble_conf_share, assemble_conf_share_reason, assemble_dob_day, assemble_dob_month,
    assemble_dob_year, assemble_conf_dob]
  refine ⟨rfl, rfl, rfl, append_ne_empty_left (by decide), ?_, ?_, ?_, ?_, ?_, ?_, ?_⟩
  · rfl
  · rfl
  · rfl
  · rfl
  · rfl
  · rfl
  · rfl

set_option maxHeartbeats 2000000 in
/-- Witness for C5: pure-image inputs with an inert client; the
extraction still succeeds with a non-empty note. -/
theorem C5_vision_failure_nonfatal_witness :
    (extract_rtw_fields c5env [] [] "s" "d" 80).1.ok = true ∧
    (extract_rtw_fields c5env [] [] "s" "d" 80).1.ai_notes ≠ "" :=
  ⟨(C5_vision_failure_nonfatal c5env [] [] "s" "d" 80
      "Gemini client not available (check GEMINI_API_KEY and google-genai install)"
      (by decide) rfl).1,
   (C5_vision_failure_nonfatal c5env [] [] "s" "d" 80
      "Gemini client not available (check GEMINI_API_KEY and google-genai install)"
      (by decide) rfl).2.2.2.1⟩

/-! ### C1 -/

theorem mergeVision_sc_of_truthy (st : FieldState) (ai : VResult)
    (h : ai.share_code_raw9 ≠ "") :
    (mergeVision st ai).sc_raw = some ai.share_code_raw9 ∧
    (mergeVision st ai).sc_conf = max st.sc_conf 90 ∧
    (mergeVision st ai).sc_reason = st.sc_reason ++ "|ai" := by
  unfold mergeVision
  by_cases h2 : ai.dob_day ≠ "" ∧ ai.dob_month ≠ "" ∧ ai.dob_year ≠ "" <;>
    simp [h, h2]

theorem mergeVision_sc_of_empty (st : FieldState) (ai : VResult)
    (h : ai.share_code_raw9 = "") :
    (mergeVision st ai).sc_raw = st.sc_raw ∧
    (mergeVision st ai).sc_conf = st.sc_conf ∧
    (mergeVision st ai).sc_reason = st.sc_reason := by
  unfold mergeVision
  by_cases h2 : ai.dob_day ≠ "" ∧ ai.dob_month ≠ "" ∧ ai.dob_year ≠ "" <;>
    simp [h, h2]

theorem mergeVision_dob_of_truthy (st : FieldState) (ai : VResult)
    (h : ai.dob_day ≠ "" ∧ ai.dob_month ≠ "" ∧ ai.dob_year ≠ "") :
    (mergeVision st ai).d = some (digitsToNat ai.dob_day.data) ∧
    (mergeVision st ai).m = some (digitsToNat ai.dob_month.data) ∧
    (mergeVision st ai).y = some (digitsToNat ai.dob_year.data) ∧
    (mergeVision st ai).dob_conf = max st.dob_conf 90 ∧
    (mergeVision st ai).dob_reason = st.dob_reason ++ "|ai" := by
  unfold mergeVision
  by_cases h1 : ai.share_code_raw9 = "" <;>
    simp [h, h1]

theorem mergeVision_dob_of_empty (st : FieldState) (ai : VResult)
    (h : ¬ (ai.dob_day ≠ "" ∧ ai.dob_month ≠ "" ∧ ai.dob_year ≠ "")) :
    (mergeVision st ai).d = st.d ∧
    (mergeVision st ai).m = st.m ∧
    (mergeVision st ai).y = st.y ∧
    (mergeVision st ai).dob_conf = st.dob_conf ∧
    (mergeVision st ai).dob_reason = st.dob_reason := by
  unfold mergeVision
  by_cases h1 : ai.share_code_raw9 = "" <;>
    simp [h, h1]

/-- C1 counterexample: the text-layer share-code candidate sits at
confidence 0.95, above the 0.80 threshold, so by the claim a vision
value must not override it — yet the returned share code is the vision
value, and the reason annotation is `"|ai"`, not `"+ai"`. -/
theorem C1_counterexample :
    (extract_share_code_from_text (text_layer c1env [0x25, 0x50, 0x44, 0x46])).conf = 95 ∧
    (extract_share_code_from_text (text_layer c1env [0x25, 0x50, 0x44, 0x46])).raw
      = some "ABC123XY9" ∧
    (extract_rtw_fields c1env [0x25, 0x50, 0x44, 0x46] [] "s.pdf" "d.png" 80).1.share_code_raw9
      = "ZZZ999AA1" ∧
    (extract_rtw_fields c1env [0x25, 0x50, 0x44, 0x46] [] "s.pdf" "d.png" 80).1.confidence.share_reason
      = "near_share_code_label|ai" := by
  decide

set_option maxHeartbeats 2000000 in
/-- C1 amended: when at least one field is absent or below threshold the
vision fallback runs exactly once (provided image preparation does not
raise), and a truthy vision value then overrides the text-layer
candidate for its field **regardless of whether that field was below
threshold**, with confidence `max(text, 0.90)` (hence ≥ 0.90) and the
reason tag suffixed `"|ai"`; a field the vision result leaves empty
keeps its text-layer value and confidence. -/
theorem C1_amended (env : Env) (sb db : List Nat) (sfn dfn : String) (thr : Nat)
    (ai : VResult) (calls : List String)
    (hneed : need_ai_check thr (extract_share_code_from_text (text_layer env sb))
      (parse_dob_from_text env.yy (text_layer env db)) = true)
    (hok : vision_attempt env sb db sfn dfn = .ok (ai, calls)) :
    (extract_rtw_fields env sb db sfn dfn thr).2 = 1 ∧
    (ai.share_code_raw9 ≠ "" →
      (extract_rtw_fields env sb db sfn dfn thr).1.share_code_raw9 = ai.share_code_raw9 ∧
      (extract_rtw_fields env sb db sfn dfn thr).1.confidence.share_code
        = max (extract_share_code_from_text (text_layer env sb)).conf 90 ∧
      90 ≤ (extract_rtw_fields env sb db sfn dfn thr).1.confidence.share_code ∧
      (extract_rtw_fields env sb db sfn dfn thr).1.confidence.share_reason
        = (extract_share_code_from_text (text_layer env sb)).reason ++ "|ai") ∧
    (ai.share_code_raw9 = "" →
      (extract_rtw_fields env sb db sfn dfn thr).1.share_code_raw9
        = pyGetStr (extract_share_code_from_text (text_layer env sb)).raw ∧
      (extract_rtw_fields env sb db sfn dfn thr).1.confidence.share_code
        = (extract_share_code_from_text (text_layer env sb)).conf) ∧
    ((ai.dob_day ≠ "" ∧ ai.dob_month ≠ "" ∧ ai.dob_year ≠ "") →
      (extract_rtw_fields env sb db sfn dfn thr).1.confidence.dob
        = max (parse_dob_from_text env.yy (text_layer env db)).conf 90 ∧
      90 ≤ (extract_rtw_fields env sb db sfn dfn thr).1.confidence.dob ∧
      (extract_rtw_fields env sb db sfn dfn thr).1.confidence.dob_reason
        = (parse_dob_from_text env.yy (text_layer env db)).reason ++ "|ai" ∧
      (extract_rtw_fields env sb db sfn dfn thr).1.dob_day
        = (if pyTruthyN (some (digitsToNat ai.dob_day.data))
           then pad2 (digitsToNat ai.dob_day.data) else "") ∧
      (extract_rtw_fields env sb db sfn dfn thr).1.dob_month
        = (if pyTruthyN (some (digitsToNat ai.dob_month.data))
           then pad2 (digitsToNat ai.dob_month.data) else "") ∧
      (extract_rtw_fields env sb db sfn dfn thr).1.dob_year
        = (if pyTruthyN (some (digitsToNat ai.dob_year.data))
           then pad4 (digitsToNat ai.dob_year.data) else "")) ∧
    (¬ (ai.dob_day ≠ "" ∧ ai.dob_month ≠ "" ∧ ai.dob_year ≠ "") →
      (extract_rtw_fields env sb db sfn dfn thr).1.confidence.dob
        = (parse_dob_from_text env.yy (text_layer env db)).conf ∧
      (extract_rtw_fields env sb db sfn dfn thr).1.confidence.dob_reason
        = (parse_dob_from_text env.yy (text_layer env db)).reason) := by
  have hres : (extract_rtw_fields env sb db sfn dfn thr).1
      = assemble (text_layer env sb) (text_layer env db)
          (mergeVision (text_state env sb db) ai) := by
    rw [extract_rtw_fields_eq, if_pos hneed, hok]
  have hgv : (extract_rtw_fields env sb db sfn dfn thr).2 = 1 := by
    rw [extract_rtw_fields_eq, if_pos hneed, if_pos hneed]
    exact vision_attempt_gv_of_ok hok
  refine ⟨hgv, ?_, ?_, ?_, ?_⟩
  · intro h
    obtain ⟨e1, e2, e3⟩ := mergeVision_sc_of_truthy (text_state env sb db) ai h
    refine ⟨?_, ?_, ?_, ?_⟩
    · rw [hres, assemble_share_raw9, e1]
      rfl
    · rw [hres, assemble_conf_share, e2, text_state_sc_conf]
    · rw [hres, assemble_conf_share, e2]
      exact Nat.le_max_right _ _
    · rw [hres, assemble_conf_share_reason, e3, text_state_sc_reason]
  · intro h
    obtain ⟨e1, e2, e3⟩ := mergeVision_sc_of_empty (text_state env sb db) ai h
    exact ⟨by rw [hres, assemble_share_raw9, e1, text_state_sc_raw],
      by rw [hres, assemble_conf_share, e2, text_state_sc_conf]⟩
  · intro h
    obtain ⟨e1, e2, e3, e4, e5⟩ := mergeVision_dob_of_truthy (text_state env sb db) ai h
    refine ⟨?_, ?_, ?_, ?_, ?_, ?_⟩
    · rw [hres, assemble_conf_dob, e4, text_state_dob_conf]
    · rw [hres, assemble_conf_dob, e4]
      exact Nat.le_max_right _ _
    · rw [hres, assemble_conf_dob_reason, e5, text_state_dob_reason]
    · rw [hres, assemble_dob_day, e1]
      rfl
    · rw [hres, assemble_dob_month, e2]
      rfl
    · rw [hres, assemble_dob_year, e3]
      rfl
  · intro h
    obtain ⟨e1, e2, e3, e4, e5⟩ := mergeVision_dob_of_empty (text_state env sb db) ai h
    exact ⟨by rw [hres, assemble_conf_dob, e4, text_state_dob_conf],
      by rw [hres, assemble_conf_dob_reason, e5, text_state_dob_reason]⟩

set_option maxHeartbeats 2000000 in
/-- Witness for C1 amended: the c1env scenario — one invocation, and the
above-threshold share field overridden with `max(0.95, 0.90)` and the
`"|ai"` suffix. -/
theorem C1_amended_witness :
    (extract_rtw_fields c1env [0x25, 0x50, 0x44, 0x46] [] "s.pdf" "d.png" 80).2 = 1 ∧
    ((extract_rtw_fields c1env [0x25, 0x50, 0x44, 0x46] [] "s.pdf" "d.png" 80).1.share_code_raw9
        = "ZZZ999AA1" ∧
      (extract_rtw_fields c1env [0x25, 0x50, 0x44, 0x46] [] "s.pdf" "d.png" 80).1.confidence.share_code
        = max (extract_share_code_from_text (text_layer c1env [0x25, 0x50, 0x44, 0x46])).conf 90 ∧
      90 ≤ (extract_rtw_fields c1env [0x25, 0x50, 0x44, 0x46] [] "s.pdf" "d.png" 80).1.confidence.share_code ∧
      (extract_rtw_fields c1env [0x25, 0x50, 0x44, 0x46] [] "s.pdf" "d.png" 80).1.confidence.share_reason
        = (extract_share_code_from_text (text_layer c1env [0x25, 0x50, 0x44, 0x46])).reason ++ "|ai") :=
  ⟨(C1_amended c1env [0x25, 0x50, 0x44, 0x46] [] "s.pdf" "d.png" 80
      ⟨"ZZZ999AA1", "", "", "", "model=S"⟩ ["F", "S"] (by decide) rfl).1,
   (C1_amended c1env [0x25, 0x50, 0x44, 0x46] [] "s.pdf" "d.png" 80
      ⟨"ZZZ999AA1", "", "", "", "model=S"⟩ ["F", "S"] (by decide) rfl).2.1 (by decide)⟩

end RTW
